import Mathlib

/-!
Shallow embedding of the Hoogah-Bot repository's token cache, token
provider, JWT payload decoder, delivery client and conversation state
machine, with theorems checking the natural-language specification's
claims against the code.

Source files embedded:
* `src/api/messages.ts` (`decodeJwtPayload`, `getBotFrameworkToken`,
  `sendToConversation`, the handler's `send` closure guards)
* `src/unnamed/part_000` (the variant of `getBotFrameworkToken` with
  claim validation warnings, the variant of `sendToConversation` that
  logs the `WWW-Authenticate` header, `sendNextQuestion`, `setupBot`)

JavaScript `Map`s become association lists, `Date.now()` and token
expiries become `Int` milliseconds, thrown exceptions become `Except`,
`console.log`/`warn`/`error` output becomes explicit log lists, and the
JS runtime builtins `Buffer.from(_, "base64")` / `JSON.parse` are
modelled by an executable strict base64 decoder and an abstract
`parseClaims` parameter respectively.
-/

set_option linter.unusedVariables false

deriving instance DecidableEq for Except

namespace HoogahBot

/-! ### JS truthiness helpers -/

/-- JS truthiness of an optional string field (`undefined` and `""` are falsy). -/
def strTruthy : Option String → Bool
  | none => false
  | some s => s ≠ ""

/-- JS truthiness of an optional numeric field (`undefined` and `0` are falsy). -/
def intTruthy : Option Int → Bool
  | none => false
  | some n => n ≠ 0

/-- JS `a || b` on two optional string expressions (used for
`activity.channelData?.tenant?.id || process.env.MS_TENANT_ID`). -/
def jsOrOpt (a b : Option String) : Option String :=
  if strTruthy a then a else b

/-! ### Token cache (`tokenCacheByTenant`, a per-tenant `Map`) -/

/-- Mirrors `type TokenCacheEntry = { token: string; expMs: number }`. -/
structure TokenCacheEntry where
  token : String
  expMs : Int
deriving Repr, DecidableEq

/-- The `Map<string, TokenCacheEntry>` as an association list. -/
abbrev TokenCache := List (String × TokenCacheEntry)

/-- `tokenCacheByTenant.get(tenantId)`. -/
def cacheGet (cache : TokenCache) (tenantId : String) : Option TokenCacheEntry :=
  match cache with
  | [] => none
  | (k, v) :: rest => if k = tenantId then some v else cacheGet rest tenantId

/-- `tokenCacheByTenant.set(tenantId, entry)`: unconditional overwrite. -/
def cacheSet (cache : TokenCache) (tenantId : String) (v : TokenCacheEntry) : TokenCache :=
  (tenantId, v) :: cache.filter (fun p => !(p.1 == tenantId))

/-- The fixed refresh skew `5 * 60 * 1000` from `now < cached.expMs - 5 * 60 * 1000`. -/
def refreshSkewMs : Int := 5 * 60 * 1000

/-! ### base64 / base64url decoding

`decodeJwtPayload` converts the middle JWT segment from base64url to
standard base64 (replacing every dash with plus and every underscore
with slash, plus `"===".slice((len + 3) % 4)` padding) and hands it to Node's
`Buffer.from(b64, "base64")`.  We model the Node decoder strictly:
a string of valid standard-base64 characters (with optional trailing
padding) decodes to its byte sequence, anything else is rejected. -/

/-- Value of a character in the standard base64 alphabet. -/
def base64CharVal (c : Char) : Option Nat :=
  if 'A' ≤ c ∧ c ≤ 'Z' then some (c.toNat - 'A'.toNat)
  else if 'a' ≤ c ∧ c ≤ 'z' then some (c.toNat - 'a'.toNat + 26)
  else if '0' ≤ c ∧ c ≤ '9' then some (c.toNat - '0'.toNat + 52)
  else if c = '+' then some 62
  else if c = '/' then some 63
  else none

/-- Value of a character in the base64url alphabet (RFC 4648 §5). -/
def base64urlCharVal (c : Char) : Option Nat :=
  if 'A' ≤ c ∧ c ≤ 'Z' then some (c.toNat - 'A'.toNat)
  else if 'a' ≤ c ∧ c ≤ 'z' then some (c.toNat - 'a'.toNat + 26)
  else if '0' ≤ c ∧ c ≤ '9' then some (c.toNat - '0'.toNat + 52)
  else if c = '-' then some 62
  else if c = '_' then some 63
  else none

/-- Reassemble 6-bit groups into bytes, dropping a trailing incomplete byte. -/
def sextetsToBytes : List Nat → List Nat
  | a :: b :: c :: d :: rest =>
      (a * 4 + b / 16) :: ((b % 16) * 16 + c / 4) :: ((c % 4) * 64 + d) :: sextetsToBytes rest
  | [a, b] => [a * 4 + b / 16]
  | [a, b, c] => [a * 4 + b / 16, (b % 16) * 16 + c / 4]
  | _ => []

/-- Strip trailing `=` padding characters. -/
def dropTrailingPad (cs : List Char) : List Char :=
  (cs.reverse.dropWhile (fun c => c == '=')).reverse

/-- Model of Node `Buffer.from(s, "base64")` restricted to well-formed input. -/
def base64decode (s : String) : Option (List Nat) :=
  ((dropTrailingPad s.data).mapM base64CharVal).map sextetsToBytes

/-- Reference base64url decoder (no padding, base64url alphabet); used to
state what correct decoding of the JWT middle segment yields. -/
def base64urlDecodeRef (s : String) : Option (List Nat) :=
  (s.data.mapM base64urlCharVal).map sextetsToBytes

/-- Character mapping performed by the two global replaces (dash to plus,
then underscore to slash; a single map, since the first replace never
produces an underscore). -/
def b64urlCharToB64 (c : Char) : Char :=
  if c = '-' then '+' else if c = '_' then '/' else c

/-- The converted-and-padded segment: mapped characters plus
`"===".slice((b64url.length + 3) % 4)`. -/
def b64urlToB64 (s : String) : String :=
  String.mk (s.data.map b64urlCharToB64 ++ "===".data.drop ((s.length + 3) % 4))

/-! ### JWT payload and `decodeJwtPayload` -/

/-- JS `token.split(".")` on the character list: split at every dot. -/
def splitOnDot : List Char → List (List Char)
  | [] => [[]]
  | c :: rest =>
    match splitOnDot rest with
    | [] => [[]]
    | seg :: segs => if c = '.' then [] :: seg :: segs else (c :: seg) :: segs

/-- JS `token.split(".")` as strings. -/
def jsSplitDot (s : String) : List String :=
  (splitOnDot s.data).map String.mk

/-- The claim fields of the decoded JWT payload that the code reads. -/
structure JwtPayload where
  exp : Option Int := none
  aud : Option String := none
  tid : Option String := none
  appid : Option String := none
  azp : Option String := none
  iss : Option String := none
deriving Repr, DecidableEq

/-- Model of `JSON.parse(Buffer...toString("utf8"))` applied to the decoded
bytes: an abstract claim parser; `none` models a `JSON.parse` throw. -/
abbrev ClaimParser := List Nat → Option JwtPayload

/-- Embeds `decodeJwtPayload` (identical in `src/api/messages.ts` lines
130–138 and `src/unnamed/part_000` lines 675–683).  `Except.ok none`
models `return null`; `Except.error ()` models an uncaught throw from
`JSON.parse` (or undecodable base64, on which Node would feed garbage to
`JSON.parse`). -/
def decodeJwtPayload (parseClaims : ClaimParser) (token : String) :
    Except Unit (Option JwtPayload) :=
  let parts := jsSplitDot token
  if parts.length ≠ 3 then .ok none
  else
    let b64url := parts.getD 1 ""
    match base64decode (b64urlToB64 b64url) with
    | none => .error ()
    | some bytes =>
      match parseClaims bytes with
      | none => .error ()
      | some payload => .ok (some payload)

/-! ### Token provider (`getBotFrameworkToken`)

The two copies (api/messages.ts lines 145–181 and part_000 lines
690–755) have identical cache/fetch/store/return behaviour; the claim
validation warnings exist only in the part_000 copy and are modelled as
a warning list (messages.ts simply produces none of them). -/

/-- Provider state threaded through calls: the per-tenant cache plus a
count of network calls made to the issuer (`axios.post(tokenUrl, ...)`). -/
structure ProviderState where
  cache : TokenCache
  issuerCalls : Nat
deriving Repr, DecidableEq

/-- `https://login.microsoftonline.com/TENANT/oauth2/v2.0/token`. -/
def tokenUrl (tenantId : String) : String :=
  "https://login.microsoftonline.com/" ++ tenantId ++ "/oauth2/v2.0/token"

/-- The `URLSearchParams` form body of the token request. -/
def tokenRequestBody (clientId clientSecret : String) : List (String × String) :=
  [("grant_type", "client_credentials"), ("client_id", clientId),
   ("client_secret", clientSecret), ("scope", "https://api.botframework.com/.default")]

/-- First accepted audience in the part_000 validation. -/
def expectedAud1 : String := "https://api.botframework.com"

/-- Second accepted audience in the part_000 validation. -/
def expectedAud2 : String := "api.botframework.com"

/-- The fetch path of `getBotFrameworkToken`: one issuer network call
(modelled by `issuerToken`, the `resp.data.access_token` the issuer
returns), decode, claim-validation warnings (part_000 lines 726–740),
conditional cache store (`if (payload.exp)`), and return of the token.
A `.error` result models the uncaught throw out of `decodeJwtPayload`. -/
def fetchFreshToken (parseClaims : ClaimParser) (clientId tenantId issuerToken : String)
    (st : ProviderState) : ProviderState × Except Unit (String × List String) :=
  let st1 : ProviderState := { st with issuerCalls := st.issuerCalls + 1 }
  match decodeJwtPayload parseClaims issuerToken with
  | .error e => (st1, .error e)
  | .ok none => (st1, .ok (issuerToken, ["Could not decode token payload"]))
  | .ok (some payload) =>
    let audWarnings :=
      if payload.aud ≠ some expectedAud1 ∧ payload.aud ≠ some expectedAud2 then
        ["Token audience mismatch"] else []
    let tokenAppId := jsOrOpt payload.appid payload.azp
    let appWarnings := if tokenAppId ≠ some clientId then ["Token app ID mismatch"] else []
    let tidWarnings := if payload.tid ≠ some tenantId then ["Token tenant mismatch"] else []
    let cache2 :=
      if intTruthy payload.exp then
        cacheSet st1.cache tenantId { token := issuerToken, expMs := payload.exp.getD 0 * 1000 }
      else st1.cache
    ({ st1 with cache := cache2 },
     .ok (issuerToken, audWarnings ++ appWarnings ++ tidWarnings))

/-- Embeds `getBotFrameworkToken`: serve the cached entry while
`now < cached.expMs - 5 * 60 * 1000`, otherwise fetch fresh. -/
def getBotFrameworkToken (parseClaims : ClaimParser)
    (clientId clientSecret tenantId issuerToken : String)
    (now : Int) (st : ProviderState) : ProviderState × Except Unit (String × List String) :=
  match cacheGet st.cache tenantId with
  | some cached =>
    if now < cached.expMs - refreshSkewMs then (st, .ok (cached.token, []))
    else fetchFreshToken parseClaims clientId tenantId issuerToken st
  | none => fetchFreshToken parseClaims clientId tenantId issuerToken st

/-- Two successive provider calls for the same tenant (the second issuer
response would be `issuerToken2` if a second network call happens). -/
def callTwice (parseClaims : ClaimParser) (clientId clientSecret tenantId : String)
    (issuerToken1 issuerToken2 : String) (now1 now2 : Int) (st : ProviderState) :
    ProviderState × Except Unit (String × String) :=
  let (st1, r1) := getBotFrameworkToken parseClaims clientId clientSecret tenantId issuerToken1 now1 st
  match r1 with
  | .error e => (st1, .error e)
  | .ok (t1, _) =>
    let (st2, r2) := getBotFrameworkToken parseClaims clientId clientSecret tenantId issuerToken2 now2 st1
    match r2 with
    | .error e => (st2, .error e)
    | .ok (t2, _) => (st2, .ok (t1, t2))

/-! ### Send-closure configuration guards (api/messages.ts lines 49–57) -/

/-- Message of `new Error("CLIENT_ID and CLIENT_SECRET must be set")`. -/
def credsMissingMsg : String := "CLIENT_ID and CLIENT_SECRET must be set"

/-- Message of the tenant-resolution error. -/
def tenantMissingMsg : String :=
  "Tenant ID not found in activity.channelData.tenant.id and MS_TENANT_ID not set"

/-- The guards at the top of the `send` closure: credential presence
check, then tenant resolution from `activity.channelData?.tenant?.id`
with `process.env.MS_TENANT_ID` fallback. -/
def sendGuard (clientId clientSecret : String)
    (channelDataTenantId envTenantId : Option String) : Except String String :=
  if clientId = "" ∨ clientSecret = "" then .error credsMissingMsg
  else
    let tenantId := jsOrOpt channelDataTenantId envTenantId
    if strTruthy tenantId then .ok (tenantId.getD "") else .error tenantMissingMsg

/-- The `send` closure up to token acquisition: the guards run before
`getBotFrameworkToken`, so a guard failure leaves the provider state
(and hence the issuer call count) untouched. -/
def sendPipeline (parseClaims : ClaimParser) (clientId clientSecret : String)
    (channelDataTenantId envTenantId : Option String) (issuerToken : String)
    (now : Int) (st : ProviderState) : ProviderState × Except String String :=
  match sendGuard clientId clientSecret channelDataTenantId envTenantId with
  | .error e => (st, .error e)
  | .ok tenantId =>
    let (st2, r) := getBotFrameworkToken parseClaims clientId clientSecret tenantId issuerToken now st
    match r with
    | .error _ => (st2, .error "token decode threw")
    | .ok (token, _) => (st2, .ok token)

/-! ### Delivery client (`sendToConversation`) -/

/-- Removal of one trailing slash (the regex replace anchored at the end
of the string). -/
def trimTrailingSlash (s : String) : String :=
  match s.data.getLast? with
  | some '/' => String.mk s.data.dropLast
  | _ => s

/-- JS `a || ""` on an optional string. -/
def jsStrOrEmpty (a : Option String) : String :=
  match a with
  | some s => s
  | none => ""

/-- Characters `encodeURIComponent` leaves unescaped. -/
def isUriUnreserved (c : Char) : Bool :=
  c.isAlphanum || c == '-' || c == '_' || c == '.' || c == '!' || c == '~' ||
    c == '*' || c == '\'' || c == '(' || c == ')'

/-- UTF-8 encoding of a character as a byte list. -/
def utf8Bytes (c : Char) : List Nat :=
  let n := c.toNat
  if n < 128 then [n]
  else if n < 2048 then [192 + n / 64, 128 + n % 64]
  else if n < 65536 then [224 + n / 4096, 128 + (n / 64) % 64, 128 + n % 64]
  else [240 + n / 262144, 128 + (n / 4096) % 64, 128 + (n / 64) % 64, 128 + n % 64]

/-- Uppercase hex digit. -/
def hexDigitUpper (n : Nat) : Char :=
  if n < 10 then Char.ofNat (48 + n) else Char.ofNat (55 + n)

/-- Percent-encoding of one byte. -/
def percentEncodeByte (b : Nat) : List Char :=
  ['%', hexDigitUpper (b / 16), hexDigitUpper (b % 16)]

/-- Model of JS `encodeURIComponent`. -/
def encodeURIComponent (s : String) : String :=
  String.mk (s.data.flatMap fun c =>
    if isUriUnreserved c then [c] else (utf8Bytes c).flatMap percentEncodeByte)

/-- The target URL built by `sendToConversation`:
trimmed service URL, `/v3/conversations/`, encoded conversation id,
`/activities`. -/
def sendToConversationUrl (serviceUrl : Option String) (conversationId : String) : String :=
  trimTrailingSlash (jsStrOrEmpty serviceUrl) ++ "/v3/conversations/" ++
    encodeURIComponent conversationId ++ "/activities"

/-- An HTTP response from the connector as the delivery client sees it
(axios is configured with `validateStatus: () => true`, so every status
arrives as a response). -/
structure HttpResponse where
  status : Int
  body : String
  wwwAuthenticate : Option String
deriving Repr, DecidableEq

/-- One `console.error` line emitted by the delivery code. -/
inductive LogItem
  | note (s : String)
  | status (s : Int)
  | wwwAuth (v : Option String)
  | body (b : String)
deriving Repr, DecidableEq

/-- Response classification of the part_000 `sendToConversation`
(lines 767–797): on a non-2xx status it logs the status, the
`WWW-Authenticate` header and the body, throws
`Error("Bot Framework Connector returned status " + status)`, and its
own catch block (where `error.response` is undefined for that plain
`Error`) additionally logs the message and rethrows. -/
def sendToConversation (resp : HttpResponse) : List LogItem × Except String Unit :=
  if resp.status < 200 ∨ 300 ≤ resp.status then
    let msg := "Bot Framework Connector returned status " ++ toString resp.status
    ([.note "Non-2xx response from Bot Framework Connector",
      .status resp.status, .wwwAuth resp.wwwAuthenticate, .body resp.body,
      .note ("Error (no response): " ++ msg)],
     .error msg)
  else ([], .ok ())

/-- Response classification of the api/messages.ts `sendToConversation`
(lines 191–206): on a non-2xx status it logs only the status and the
body, then throws; the `WWW-Authenticate` header is read nowhere on this
path (the caller's catch inspects `error.response`, which a plain thrown
`Error` does not have). -/
def sendToConversationApi (resp : HttpResponse) : List LogItem × Except String Unit :=
  if resp.status < 200 ∨ 300 ≤ resp.status then
    ([.note "Non-2xx response from Bot Framework Connector",
      .status resp.status, .body resp.body],
     .error ("Bot Framework Connector returned status " ++ toString resp.status))
  else ([], .ok ())

/-! ### Conversation state machine (part_000 lines 1163–1287) -/

/-- `interface UserState` with per-question answers. -/
structure UserState where
  q1 : Option String := none
  q2 : Option String := none
  q3 : Option String := none
  hasStarted : Bool := false
deriving Repr, DecidableEq

/-- The static adaptive cards the handler can send. -/
inductive Card
  | welcome
  | question1
  | question2
  | question3
  | finalMatch
deriving Repr, DecidableEq

/-- Embeds `sendNextQuestion`: first unanswered question's card, else
the final card. -/
def sendNextQuestion (state : UserState) : Card :=
  if ¬ strTruthy state.q1 then .question1
  else if ¬ strTruthy state.q2 then .question2
  else if ¬ strTruthy state.q3 then .question3
  else .finalMatch

/-- An adaptive-card submit value (`activity.value`). -/
structure ActionValue where
  typ : String
  questionId : Option Int := none
  value : Option String := none
deriving Repr, DecidableEq

/-- The fields of an inbound activity the message handler reads. -/
structure MessageActivity where
  typ : String
  value : Option ActionValue := none
  text : Option String := none
deriving Repr, DecidableEq

/-- The answer-recording `if` chain of the handler. -/
def recordAnswer (state : UserState) (questionId : Int) (ans : String) : UserState :=
  if questionId = 1 then { state with q1 := some ans }
  else if questionId = 2 then { state with q2 := some ans }
  else if questionId = 3 then { state with q3 := some ans }
  else state

/-- JS `toLowerCase().trim()` applied to the stripped text. -/
def jsLowerTrim (s : String) : String :=
  String.mk
    ((((s.data.map Char.toLower).dropWhile Char.isWhitespace).reverse.dropWhile
      Char.isWhitespace).reverse)

/-- The text-message part of the handler: restart check for completed
conversations, then the welcome card for conversations not yet started.
`stripped` stands for `stripMentionsText(activity)` (vendor SDK). -/
def onMessageTextBranch (state : UserState) (act : MessageActivity) (stripped : String) :
    UserState × List Card :=
  if act.typ = "message" ∧ strTruthy act.text then
    let text := jsLowerTrim stripped
    if strTruthy state.q1 ∧ strTruthy state.q2 ∧ strTruthy state.q3 ∧
        (text = "hi" ∨ text = "hello" ∨ text = "hey" ∨ text = "start" ∨
         text = "restart" ∨ text = "begin") then
      ({ q1 := none, q2 := none, q3 := none, hasStarted := true }, [.welcome])
    else if ¬ state.hasStarted then
      ({ state with hasStarted := true }, [.welcome])
    else (state, [])
  else (state, [])

/-- Embeds the `app.on("message")` handler of `setupBot` for one
conversation: submit actions first (start, answer), then text handling.
Returns the conversation's new state and the cards sent. -/
def onMessage (state : UserState) (act : MessageActivity) (stripped : String) :
    UserState × List Card :=
  match act.value with
  | some v =>
    if act.typ = "message" then
      if v.typ = "start" then (state, [sendNextQuestion state])
      else if v.typ = "answer" ∧ intTruthy v.questionId ∧ strTruthy v.value then
        let state2 := recordAnswer state (v.questionId.getD 0) (v.value.getD "")
        (state2, [sendNextQuestion state2])
      else onMessageTextBranch state act stripped
    else onMessageTextBranch state act stripped
  | none => onMessageTextBranch state act stripped

/-! ## Theorems -/

/-- Reading back the entry just stored for a tenant. -/
theorem cacheGet_cacheSet_self (cache : TokenCache) (k : String) (v : TokenCacheEntry) :
    cacheGet (cacheSet cache k v) k = some v := by
  simp [cacheGet, cacheSet]

/-- C1: starting from a cache with no entry for the tenant, if the
fetched token decodes to a payload with a (truthy) `exp` and the second
call happens while `now < exp * 1000 - 5 min`, then calling the token
provider twice performs exactly one issuer network call in total and the
second call returns the identical token string the first call returned. -/
theorem C1_cached_second_call (parseClaims : ClaimParser)
    (clientId clientSecret tenantId t1 t2 : String) (p : JwtPayload)
    (now1 now2 : Int) (st : ProviderState)
    (hcold : cacheGet st.cache tenantId = none)
    (hdec : decodeJwtPayload parseClaims t1 = .ok (some p))
    (hexp : intTruthy p.exp = true)
    (hvalid : now2 < p.exp.getD 0 * 1000 - refreshSkewMs) :
    callTwice parseClaims clientId clientSecret tenantId t1 t2 now1 now2 st =
      ({ cache := cacheSet st.cache tenantId { token := t1, expMs := p.exp.getD 0 * 1000 },
         issuerCalls := st.issuerCalls + 1 }, .ok (t1, t1)) := by
  simp [callTwice, getBotFrameworkToken, fetchFreshToken, hcold, hdec, hexp,
    cacheGet_cacheSet_self, hvalid]

/-- Witness for C1 at a concrete cold cache and token. -/
theorem C1_cached_second_call_witness :
    callTwice (fun _ => some { exp := some 1000000 }) "cid" "secret" "tenantA"
        "a.b.c" "t2" 0 0 ⟨[], 0⟩ =
      ({ cache := cacheSet [] "tenantA" { token := "a.b.c", expMs := 1000000000 },
         issuerCalls := 1 }, .ok ("a.b.c", "a.b.c")) :=
  C1_cached_second_call (fun _ => some { exp := some 1000000 }) "cid" "secret" "tenantA"
    "a.b.c" "t2" { exp := some 1000000 } 0 0 ⟨[], 0⟩ (by decide) (by decide) (by decide)
    (by decide)

/-- C2: the cached entry for a tenant is served exactly while
`now < expiresAtMs - 5 min`; once that has passed, the next provider
call does not use the cached entry: it makes exactly one new issuer
network call and (when the fetched token decodes without throwing)
returns the freshly fetched token. -/
theorem C2_refresh_skew (parseClaims : ClaimParser)
    (clientId clientSecret tenantId t : String) (c : TokenCacheEntry)
    (pr : Option JwtPayload) (now : Int) (st : ProviderState)
    (hc : cacheGet st.cache tenantId = some c)
    (hdec : decodeJwtPayload parseClaims t = .ok pr) :
    (now < c.expMs - refreshSkewMs →
      getBotFrameworkToken parseClaims clientId clientSecret tenantId t now st =
        (st, .ok (c.token, []))) ∧
    (¬ now < c.expMs - refreshSkewMs →
      (getBotFrameworkToken parseClaims clientId clientSecret tenantId t now st).1.issuerCalls =
        st.issuerCalls + 1 ∧
      ∃ w, (getBotFrameworkToken parseClaims clientId clientSecret tenantId t now st).2 =
        .ok (t, w)) := by
  constructor
  · intro h
    simp [getBotFrameworkToken, hc, h]
  · intro h
    refine ⟨?_, ?_⟩ <;> rcases pr with _ | p <;>
      simp [getBotFrameworkToken, fetchFreshToken, hc, h, hdec]

/-- Witness for C2: a valid cached entry is served as is; an expired one
triggers one fresh issuer call. -/
theorem C2_refresh_skew_witness :
    getBotFrameworkToken (fun _ => some { exp := some 1000000 }) "cid" "secret" "tenantA"
        "a.b.c" 0 ⟨[("tenantA", { token := "cached", expMs := 10000000 })], 0⟩ =
      (⟨[("tenantA", { token := "cached", expMs := 10000000 })], 0⟩, .ok ("cached", [])) ∧
    (getBotFrameworkToken (fun _ => some { exp := some 1000000 }) "cid" "secret" "tenantA"
        "a.b.c" 99999999 ⟨[("tenantA", { token := "cached", expMs := 10000000 })], 0⟩).1.issuerCalls
      = 1 := by
  constructor
  · exact (C2_refresh_skew (fun _ => some { exp := some 1000000 }) "cid" "secret" "tenantA"
      "a.b.c" { token := "cached", expMs := 10000000 } (some { exp := some 1000000 }) 0
      ⟨[("tenantA", { token := "cached", expMs := 10000000 })], 0⟩ (by decide) (by decide)).1
      (by decide)
  · exact ((C2_refresh_skew (fun _ => some { exp := some 1000000 }) "cid" "secret" "tenantA"
      "a.b.c" { token := "cached", expMs := 10000000 } (some { exp := some 1000000 }) 99999999
      ⟨[("tenantA", { token := "cached", expMs := 10000000 })], 0⟩ (by decide) (by decide)).2
      (by decide)).1

/-- C3 counterexample: a successful issuer fetch (one network call, the
returned `access_token` is handed back to the caller) of a token that
does not decode leaves the cache without any entry for the tenant, so a
successful fetch does not always create or overwrite a cache entry. -/
theorem C3_counterexample :
    getBotFrameworkToken (fun _ => some { exp := some 1 }) "cid" "secret" "tenantA"
        "notajwt" 0 ⟨[], 0⟩ =
      (⟨[], 1⟩, .ok ("notajwt", ["Could not decode token payload"])) ∧
    cacheGet ([] : TokenCache) "tenantA" = none := by decide

/-- C3 (amended): every successful token fetch whose access token decodes
to a payload with a truthy `exp` claim creates or overwrites the cache
entry for the tenant, storing `expiresAtMs = exp * 1000`, and returns
the token string; a token without such a payload is returned uncached. -/
theorem C3_cache_store (parseClaims : ClaimParser)
    (clientId clientSecret tenantId t : String) (p : JwtPayload)
    (now : Int) (st : ProviderState)
    (hmiss : ∀ c, cacheGet st.cache tenantId = some c → ¬ now < c.expMs - refreshSkewMs)
    (hdec : decodeJwtPayload parseClaims t = .ok (some p))
    (hexp : intTruthy p.exp = true) :
    ∃ w, getBotFrameworkToken parseClaims clientId clientSecret tenantId t now st =
      ({ cache := cacheSet st.cache tenantId { token := t, expMs := p.exp.getD 0 * 1000 },
         issuerCalls := st.issuerCalls + 1 }, .ok (t, w)) := by
  cases hcg : cacheGet st.cache tenantId with
  | none => simp [getBotFrameworkToken, fetchFreshToken, hcg, hdec, hexp]
  | some c =>
    have hmc := hmiss c hcg
    simp [getBotFrameworkToken, fetchFreshToken, hcg, hmc, hdec, hexp]

/-- Witness for C3 (amended) at a concrete cold cache. -/
theorem C3_cache_store_witness :
    ∃ w, getBotFrameworkToken (fun _ => some { exp := some 1000000 }) "cid" "secret" "tenantA"
        "a.b.c" 0 ⟨[], 0⟩ =
      ({ cache := cacheSet [] "tenantA" { token := "a.b.c", expMs := 1000000000 },
         issuerCalls := 1 }, .ok ("a.b.c", w)) :=
  C3_cache_store (fun _ => some { exp := some 1000000 }) "cid" "secret" "tenantA" "a.b.c"
    { exp := some 1000000 } 0 ⟨[], 0⟩ (fun c h => Option.noConfusion h) (by decide) (by decide)

/-- C10: an access token that does not split into exactly three
dot-separated segments makes `decodeJwtPayload` return null without
throwing; the provider then returns that token without caching it, so
the next call for the tenant performs a fresh issuer fetch. -/
theorem C10_unparsable_not_cached (parseClaims : ClaimParser)
    (clientId clientSecret tenantId t1 t2 : String) (now1 now2 : Int) (st : ProviderState)
    (hsplit : (jsSplitDot t1).length ≠ 3)
    (hcold : cacheGet st.cache tenantId = none) :
    decodeJwtPayload parseClaims t1 = .ok none ∧
    getBotFrameworkToken parseClaims clientId clientSecret tenantId t1 now1 st =
      ({ cache := st.cache, issuerCalls := st.issuerCalls + 1 },
       .ok (t1, ["Could not decode token payload"])) ∧
    (getBotFrameworkToken parseClaims clientId clientSecret tenantId t2 now2
        { cache := st.cache, issuerCalls := st.issuerCalls + 1 }).1.issuerCalls =
      st.issuerCalls + 2 := by
  have hdec : decodeJwtPayload parseClaims t1 = .ok none := by
    simp [decodeJwtPayload, hsplit]
  refine ⟨hdec, ?_, ?_⟩
  · simp [getBotFrameworkToken, fetchFreshToken, hcold, hdec]
  · cases hd2 : decodeJwtPayload parseClaims t2 with
    | error e => simp [getBotFrameworkToken, fetchFreshToken, hcold, hd2]
    | ok pr =>
      cases pr <;> simp [getBotFrameworkToken, fetchFreshToken, hcold, hd2]

/-- Witness for C10 with a dotless token and a cold cache. -/
theorem C10_unparsable_not_cached_witness :
    decodeJwtPayload (fun _ => some { exp := some 1 }) "nodots" = .ok none ∧
    getBotFrameworkToken (fun _ => some { exp := some 1 }) "cid" "secret" "tenantA"
        "nodots" 0 ⟨[], 0⟩ =
      ({ cache := [], issuerCalls := 1 }, .ok ("nodots", ["Could not decode token payload"])) ∧
    (getBotFrameworkToken (fun _ => some { exp := some 1 }) "cid" "secret" "tenantA"
        "x.y" 5 { cache := [], issuerCalls := 1 }).1.issuerCalls = 2 :=
  C10_unparsable_not_cached (fun _ => some { exp := some 1 }) "cid" "secret" "tenantA"
    "nodots" "x.y" 0 5 ⟨[], 0⟩ (by decide) (by decide)

/-- C8: after a fresh fetch whose token decodes, mismatching audience,
application id and tenant claims each log a warning, but no error is
raised: the token is still returned to the caller and stored in the
cache. -/
theorem C8_validation_warns_only (parseClaims : ClaimParser)
    (clientId clientSecret tenantId t : String) (p : JwtPayload)
    (now : Int) (st : ProviderState)
    (hmiss : cacheGet st.cache tenantId = none)
    (hdec : decodeJwtPayload parseClaims t = .ok (some p))
    (hexp : intTruthy p.exp = true)
    (haud1 : p.aud ≠ some expectedAud1) (haud2 : p.aud ≠ some expectedAud2)
    (happ : jsOrOpt p.appid p.azp ≠ some clientId)
    (htid : p.tid ≠ some tenantId) :
    getBotFrameworkToken parseClaims clientId clientSecret tenantId t now st =
      ({ cache := cacheSet st.cache tenantId { token := t, expMs := p.exp.getD 0 * 1000 },
         issuerCalls := st.issuerCalls + 1 },
       .ok (t, ["Token audience mismatch", "Token app ID mismatch",
                "Token tenant mismatch"])) := by
  simp [getBotFrameworkToken, fetchFreshToken, hmiss, hdec, hexp, haud1, haud2, happ, htid]

/-- Witness for C8 with a token whose claims all mismatch. -/
theorem C8_validation_warns_only_witness :
    getBotFrameworkToken
        (fun _ => some { exp := some 1000000, aud := some "https://evil.example",
                         tid := some "otherTenant", appid := some "otherApp" })
        "cid" "secret" "tenantA" "a.b.c" 0 ⟨[], 0⟩ =
      ({ cache := cacheSet [] "tenantA" { token := "a.b.c", expMs := 1000000000 },
         issuerCalls := 1 },
       .ok ("a.b.c", ["Token audience mismatch", "Token app ID mismatch",
                      "Token tenant mismatch"])) :=
  C8_validation_warns_only
    (fun _ => some { exp := some 1000000, aud := some "https://evil.example",
                     tid := some "otherTenant", appid := some "otherApp" })
    "cid" "secret" "tenantA" "a.b.c"
    { exp := some 1000000, aud := some "https://evil.example",
      tid := some "otherTenant", appid := some "otherApp" }
    0 ⟨[], 0⟩ (by decide) (by decide) (by decide) (by decide) (by decide) (by decide)
    (by decide)

/-- C6 counterexample: a missing `clientId` and a missing `clientSecret`
produce the identical error, so the configuration error does not
distinguish which of the two credentials is missing. -/
theorem C6_counterexample :
    sendGuard "" "secret" (some "tenantA") none = .error credsMissingMsg ∧
    sendGuard "client-id" "" (some "tenantA") none = .error credsMissingMsg := by decide

/-- C6 (amended): a missing credential or unresolved tenant fails the
delivery fast with a descriptive error and with no network call (the
provider state, including the issuer call count, is untouched); the
tenant error is distinct from the credential error, but one combined
message covers both a missing clientId and a missing clientSecret. -/
theorem C6_fail_fast (parseClaims : ClaimParser) (clientId clientSecret : String)
    (channelDataTenantId envTenantId : Option String) (issuerToken : String)
    (now : Int) (st : ProviderState) :
    ((clientId = "" ∨ clientSecret = "") →
      sendPipeline parseClaims clientId clientSecret channelDataTenantId envTenantId
          issuerToken now st = (st, .error credsMissingMsg)) ∧
    (clientId ≠ "" → clientSecret ≠ "" →
      strTruthy (jsOrOpt channelDataTenantId envTenantId) = false →
      sendPipeline parseClaims clientId clientSecret channelDataTenantId envTenantId
          issuerToken now st = (st, .error tenantMissingMsg)) ∧
    credsMissingMsg ≠ tenantMissingMsg := by
  refine ⟨?_, ?_, by decide⟩
  · intro h
    rcases h with h | h <;> simp [sendPipeline, sendGuard, h]
  · intro h1 h2 h3
    simp [sendPipeline, sendGuard, h1, h2, h3]

/-- Witness for C6 (amended): missing clientId, and missing tenant. -/
theorem C6_fail_fast_witness :
    sendPipeline (fun _ => some { exp := some 1 }) "" "secret" (some "tenantA") none
        "tok" 0 ⟨[], 0⟩ = (⟨[], 0⟩, .error credsMissingMsg) ∧
    sendPipeline (fun _ => some { exp := some 1 }) "cid" "secret" none none
        "tok" 0 ⟨[], 0⟩ = (⟨[], 0⟩, .error tenantMissingMsg) := by
  constructor
  · exact (C6_fail_fast (fun _ => some { exp := some 1 }) "" "secret" (some "tenantA") none
      "tok" 0 ⟨[], 0⟩).1 (Or.inl rfl)
  · exact (C6_fail_fast (fun _ => some { exp := some 1 }) "cid" "secret" none none
      "tok" 0 ⟨[], 0⟩).2.1 (by decide) (by decide) (by decide)

/-- C7 counterexample: the api/messages.ts delivery client, on HTTP 401
with header value Bearer error="invalid_token", logs only the status and
the body and throws an error whose message carries only the status: the
auth-challenge header value is not surfaced anywhere on that path. -/
theorem C7_counterexample :
    sendToConversationApi
        { status := 401, body := "\x7b\x7d",
          wwwAuthenticate := some "Bearer error=\"invalid_token\"" } =
      ([.note "Non-2xx response from Bot Framework Connector", .status 401, .body "\x7b\x7d"],
       .error "Bot Framework Connector returned status 401") ∧
    LogItem.wwwAuth (some "Bearer error=\"invalid_token\"") ∉
      (sendToConversationApi
        { status := 401, body := "\x7b\x7d",
          wwwAuthenticate := some "Bearer error=\"invalid_token\"" }).1 := by
  decide

/-- C7 (amended): any response with status outside 200–299 is classified
as a failure; the part_000 delivery client logs the HTTP status, the
auth-challenge header value verbatim and the response body, and throws
an error carrying the status (the header value is surfaced in the
diagnostic log, not attached to the thrown error; the api/messages.ts
variant logs only status and body). -/
theorem C7_delivery_failure_surfaced (resp : HttpResponse)
    (hfail : resp.status < 200 ∨ 300 ≤ resp.status) :
    (sendToConversation resp).2 =
      .error ("Bot Framework Connector returned status " ++ toString resp.status) ∧
    LogItem.status resp.status ∈ (sendToConversation resp).1 ∧
    LogItem.wwwAuth resp.wwwAuthenticate ∈ (sendToConversation resp).1 ∧
    LogItem.body resp.body ∈ (sendToConversation resp).1 := by
  simp [sendToConversation, hfail]

/-- Witness for C7 (amended) at the 401 auth-challenge scenario. -/
theorem C7_delivery_failure_surfaced_witness :
    (sendToConversation
        { status := 401, body := "\x7b\x7d",
          wwwAuthenticate := some "Bearer error=\"invalid_token\"" }).2 =
      .error "Bot Framework Connector returned status 401" ∧
    LogItem.wwwAuth (some "Bearer error=\"invalid_token\"") ∈
      (sendToConversation
        { status := 401, body := "\x7b\x7d",
          wwwAuthenticate := some "Bearer error=\"invalid_token\"" }).1 := by
  have h := C7_delivery_failure_surfaced
    { status := 401, body := "\x7b\x7d",
      wwwAuthenticate := some "Bearer error=\"invalid_token\"" } (by decide)
  exact ⟨h.1, h.2.2.1⟩

/-- Trimming a base URL that ends in a slash removes exactly that slash. -/
theorem trimTrailingSlash_concat_slash (s : String) :
    trimTrailingSlash (s ++ "/") = s := by
  obtain ⟨l⟩ := s
  show trimTrailingSlash ⟨l ++ ['/']⟩ = ⟨l⟩
  unfold trimTrailingSlash
  simp [List.getLast?_concat, List.dropLast_concat]

/-- Trimming a base URL that does not end in a slash is the identity. -/
theorem trimTrailingSlash_no_slash (s : String) (h : s.data.getLast? ≠ some '/') :
    trimTrailingSlash s = s := by
  unfold trimTrailingSlash
  split
  · next heq => exact absurd heq h
  · rfl

/-- C5: the delivery URL is the trailing-slash-trimmed base followed by
the conversations path, the percent-encoded conversation id and the
activities suffix; for a base without a trailing slash, the URL built
from the base and from the base plus a trailing slash are identical. -/
theorem C5_url_build (b conversationId : String) :
    sendToConversationUrl (some b) conversationId =
      trimTrailingSlash b ++ "/v3/conversations/" ++
        encodeURIComponent conversationId ++ "/activities" ∧
    (b.data.getLast? ≠ some '/' →
      sendToConversationUrl (some (b ++ "/")) conversationId =
        sendToConversationUrl (some b) conversationId) := by
  constructor
  · rfl
  · intro hb
    simp [sendToConversationUrl, jsStrOrEmpty, trimTrailingSlash_concat_slash,
      trimTrailingSlash_no_slash b hb]

/-- Witness for C5 at a concrete base URL and conversation id. -/
theorem C5_url_build_witness :
    sendToConversationUrl (some ("https://smba.trafficmanager.net/amer" ++ "/")) "19:x" =
      sendToConversationUrl (some "https://smba.trafficmanager.net/amer") "19:x" :=
  (C5_url_build "https://smba.trafficmanager.net/amer" "19:x").2 (by decide)

/-- A character with a base64url value keeps that value under the
dash-to-plus, underscore-to-slash conversion, read in the standard
base64 alphabet. -/
theorem base64urlCharVal_map (c : Char) (v : Nat) (h : base64urlCharVal c = some v) :
    base64CharVal (b64urlCharToB64 c) = some v := by
  by_cases h1 : c = '-'
  · subst h1
    have h62 : base64urlCharVal '-' = some 62 := by decide
    rw [h62] at h
    cases h
    decide
  · by_cases h2 : c = '_'
    · subst h2
      have h63 : base64urlCharVal '_' = some 63 := by decide
      rw [h63] at h
      cases h
      decide
    · have hmap : b64urlCharToB64 c = c := by simp [b64urlCharToB64, h1, h2]
      rw [hmap]
      unfold base64urlCharVal at h
      unfold base64CharVal
      split_ifs at h ⊢ <;> simp_all

/-- A character with a base64url value never converts to the padding
character. -/
theorem b64urlCharToB64_ne_pad (c : Char) (h : (base64urlCharVal c).isSome) :
    b64urlCharToB64 c ≠ '=' := by
  unfold b64urlCharToB64
  split_ifs with h1 h2
  · decide
  · decide
  · intro heq
    subst heq
    revert h
    decide

/-- Valid base64url character lists keep their values under conversion. -/
theorem mapM_map_b64 (l : List Char) (vs : List Nat)
    (h : l.mapM base64urlCharVal = some vs) :
    (l.map b64urlCharToB64).mapM base64CharVal = some vs := by
  induction l generalizing vs with
  | nil => simpa using h
  | cons c cs ih =>
    rw [List.mapM_cons] at h
    cases hc : base64urlCharVal c with
    | none => rw [hc] at h; simp at h
    | some v =>
      rw [hc] at h
      cases hcs : cs.mapM base64urlCharVal with
      | none => rw [hcs] at h; simp at h
      | some ws =>
        rw [hcs] at h
        simp at h
        subst h
        rw [List.map_cons, List.mapM_cons, base64urlCharVal_map c v hc, ih ws hcs]
        rfl

/-- Every character of a list that maps successfully has a value. -/
theorem mapM_isSome_mem (l : List Char) (vs : List Nat)
    (h : l.mapM base64urlCharVal = some vs) (c : Char) (hc : c ∈ l) :
    (base64urlCharVal c).isSome := by
  induction l generalizing vs with
  | nil => cases hc
  | cons a as ih =>
    rw [List.mapM_cons] at h
    cases ha : base64urlCharVal a with
    | none => rw [ha] at h; simp at h
    | some v =>
      rw [ha] at h
      cases has : as.mapM base64urlCharVal with
      | none => rw [has] at h; simp at h
      | some ws =>
        rcases List.mem_cons.mp hc with rfl | hmem
        · rw [ha]; rfl
        · exact ih ws has hmem

/-- dropWhile over an append whose first part fully satisfies the
predicate. -/
theorem dropWhile_append_all (p : Char → Bool) (l1 l2 : List Char)
    (h : ∀ a ∈ l1, p a) :
    (l1 ++ l2).dropWhile p = l2.dropWhile p := by
  induction l1 with
  | nil => rfl
  | cons a as ih =>
    have hpa := h a (List.mem_cons_self a as)
    simp only [List.cons_append, List.dropWhile_cons, hpa, if_true]
    exact ih (fun b hb => h b (List.mem_cons_of_mem a hb))

/-- dropWhile is the identity when no element satisfies the predicate. -/
theorem dropWhile_eq_self_of_none (p : Char → Bool) (l : List Char)
    (h : ∀ a ∈ l, ¬ p a) : l.dropWhile p = l := by
  cases l with
  | nil => rfl
  | cons a as => simp [List.dropWhile_cons, h a (List.mem_cons_self a as)]

/-- Padding stripping removes exactly an all-padding suffix when the
prefix contains no padding character. -/
theorem dropTrailingPad_append_pad (xs pads : List Char)
    (hx : ∀ a ∈ xs, a ≠ '=') (hp : ∀ a ∈ pads, a = '=') :
    dropTrailingPad (xs ++ pads) = xs := by
  unfold dropTrailingPad
  rw [List.reverse_append]
  rw [dropWhile_append_all _ pads.reverse xs.reverse
    (fun a ha => by simp [hp a (List.mem_reverse.mp ha)])]
  rw [dropWhile_eq_self_of_none _ xs.reverse
    (fun a ha => by simp [hx a (List.mem_reverse.mp ha)])]
  exact List.reverse_reverse xs

/-- Every character of the selected padding suffix is the padding
character. -/
theorem pad_chars_eq (n : Nat) : ∀ a ∈ "===".data.drop n, a = '=' := by
  intro a ha
  have hmem : a ∈ "===".data := List.drop_subset n _ ha
  have hd : "===".data = ['=', '=', '='] := rfl
  rw [hd] at hmem
  simpa using hmem

/-- The code's base64url-to-base64 conversion plus padding, decoded by
the standard base64 decoder, yields exactly the base64url decoding of
the original segment. -/
theorem base64decode_b64urlToB64 (s : String)
    (hvalid : (s.data.mapM base64urlCharVal).isSome) :
    base64decode (b64urlToB64 s) = base64urlDecodeRef s := by
  obtain ⟨vs, hvs⟩ := Option.isSome_iff_exists.mp hvalid
  have hx : ∀ a ∈ s.data.map b64urlCharToB64, a ≠ '=' := by
    intro a ha
    rcases List.mem_map.mp ha with ⟨c, hc, rfl⟩
    exact b64urlCharToB64_ne_pad c (mapM_isSome_mem s.data vs hvs c hc)
  have hdata : (b64urlToB64 s).data =
      s.data.map b64urlCharToB64 ++ "===".data.drop ((s.length + 3) % 4) := rfl
  unfold base64decode base64urlDecodeRef
  rw [hdata, dropTrailingPad_append_pad _ _ hx (pad_chars_eq _),
    mapM_map_b64 s.data vs hvs, hvs]

/-- Reference meaning of decoding a JWT middle segment, following the
spec's words: base64url-decode the segment and parse the claims from
the resulting bytes. -/
def decodeMiddleSegmentRef (parseClaims : ClaimParser) (middle : String) :
    Except Unit (Option JwtPayload) :=
  match base64urlDecodeRef middle with
  | none => .error ()
  | some bytes =>
    match parseClaims bytes with
    | none => .error ()
    | some payload => .ok (some payload)

/-- C4: for a three-segment token whose middle segment is valid base64url
(so its length mod 4 is 0, 2 or 3), `decodeJwtPayload` converts the
base64url alphabet and restores the padding correctly: it computes
exactly the claims parsed from the correct base64url decoding of the
middle segment. -/
theorem C4_base64url_correct (parseClaims : ClaimParser) (token hs ms fs : String)
    (hsplit : jsSplitDot token = [hs, ms, fs])
    (hvalid : (ms.data.mapM base64urlCharVal).isSome)
    (hlen : ms.length % 4 ≠ 1) :
    decodeJwtPayload parseClaims token = decodeMiddleSegmentRef parseClaims ms := by
  unfold decodeJwtPayload decodeMiddleSegmentRef
  rw [hsplit]
  simp [base64decode_b64urlToB64 ms hvalid]

/-- Witness for C4 on a concrete token whose middle segment is the
base64url encoding of a small claims object. -/
theorem C4_base64url_correct_witness :
    decodeJwtPayload (fun _ => some { exp := some 1 }) "hh.eyJleHAiOjF9.ss" =
      decodeMiddleSegmentRef (fun _ => some { exp := some 1 }) "eyJleHAiOjF9" :=
  C4_base64url_correct (fun _ => some { exp := some 1 }) "hh.eyJleHAiOjF9.ss"
    "hh" "eyJleHAiOjF9" "ss" (by decide) (by decide) (by decide)

/-- Follows the spec's state machine description: the card for the
lowest-numbered unanswered question, or the completion card once all
three answers are recorded. -/
def lowestUnansweredCard (s : UserState) : Card :=
  if ¬ strTruthy s.q1 then .question1
  else if ¬ strTruthy s.q2 then .question2
  else if ¬ strTruthy s.q3 then .question3
  else .finalMatch

/-- C9: a structured answer action tagged with question index i in
{1, 2, 3} records the (non-empty) answer at index i and is answered with
the card for the lowest-numbered still-unanswered question, or the
completion card once all three answers are recorded; and from the
completed state a recognized restart phrase clears all three recorded
answers (the not-started answer shape) and sends the welcome card. -/
theorem C9_state_machine (state : UserState) (act : MessageActivity) (stripped : String) :
    (∀ v i a, act.typ = "message" → act.value = some v → v.typ = "answer" →
      v.questionId = some i → v.value = some a → (i = 1 ∨ i = 2 ∨ i = 3) → a ≠ "" →
      onMessage state act stripped =
        (recordAnswer state i a, [lowestUnansweredCard (recordAnswer state i a)]) ∧
      (i = 1 → (recordAnswer state i a).q1 = some a) ∧
      (i = 2 → (recordAnswer state i a).q2 = some a) ∧
      (i = 3 → (recordAnswer state i a).q3 = some a)) ∧
    (∀ txt, act.typ = "message" → act.value = none → act.text = some txt → txt ≠ "" →
      strTruthy state.q1 = true → strTruthy state.q2 = true → strTruthy state.q3 = true →
      (jsLowerTrim stripped = "hi" ∨ jsLowerTrim stripped = "hello" ∨
       jsLowerTrim stripped = "hey" ∨ jsLowerTrim stripped = "start" ∨
       jsLowerTrim stripped = "restart" ∨ jsLowerTrim stripped = "begin") →
      onMessage state act stripped =
        ({ q1 := none, q2 := none, q3 := none, hasStarted := true }, [Card.welcome])) := by
  constructor
  · intro v i a htyp hval hvtyp hqid hans hi ha
    have hqid0 : intTruthy (some i) = true := by
      rcases hi with rfl | rfl | rfl <;> decide
    have hans0 : strTruthy (some a) = true := by
      simpa [strTruthy] using ha
    have hvstart : v.typ ≠ "start" := by rw [hvtyp]; decide
    refine ⟨?_, ?_, ?_, ?_⟩
    · simp [onMessage, hval, htyp, hvtyp, hvstart, hqid0, hans0, hqid, hans,
        sendNextQuestion, lowestUnansweredCard]
    · intro h1; subst h1; simp [recordAnswer]
    · intro h2; subst h2; simp [recordAnswer]
    · intro h3; subst h3; simp [recordAnswer]
  · intro txt htyp hval htxt htxt0 hq1 hq2 hq3 hphrase
    have htext : strTruthy act.text = true := by
      rw [htxt]
      simpa [strTruthy] using htxt0
    simp only [onMessage, hval]
    simp [onMessageTextBranch, htyp, htext, hq1, hq2, hq3, hphrase]

/-- Witness for C9: answering question 2 from a state where question 1 is
answered, and restarting a completed conversation with hi. -/
theorem C9_state_machine_witness :
    onMessage { q1 := some "x" }
        { typ := "message",
          value := some { typ := "answer", questionId := some 2, value := some "B" } } "" =
      ({ q1 := some "x", q2 := some "B" }, [Card.question3]) ∧
    onMessage { q1 := some "x", q2 := some "y", q3 := some "z" }
        { typ := "message", text := some "Hi" } " Hi " =
      ({ q1 := none, q2 := none, q3 := none, hasStarted := true }, [Card.welcome]) := by
  constructor
  · exact ((C9_state_machine { q1 := some "x" }
      { typ := "message",
        value := some { typ := "answer", questionId := some 2, value := some "B" } } "").1
      { typ := "answer", questionId := some 2, value := some "B" } 2 "B"
      rfl rfl rfl rfl rfl (by decide) (by decide)).1
  · exact (C9_state_machine { q1 := some "x", q2 := some "y", q3 := some "z" }
      { typ := "message", text := some "Hi" } " Hi ").2 "Hi"
      rfl rfl rfl (by decide) (by decide) (by decide) (by decide) (by decide)

end HoogahBot
